import Mathlib

/-!
Shallow embedding of `tracer.py` (enhanced-traceroute): a traceroute wrapper
that extracts IPv4-shaped addresses from each output line, looks them up in
two local GeoIP databases and prints formatted per-hop blocks.

Python strings are modelled as `List Char`; the regex
`(?:[0-9]{1,3}\.){3}[0-9]{1,3}` and `re.search` are modelled by an
executable matcher with the same backtracking semantics; external effects
(DNS, database readers, the subprocess) are oracle parameters, with
Python exceptions modelled as `Except` results.
-/

abbrev Str := List Char

/-! ## HopLineParser: the regex `(?:[0-9]{1,3}\.){3}[0-9]{1,3}` and `re.search` -/

/-- Length of the maximal prefix of ASCII digits (the greedy `[0-9]` run). -/
def digitRun : Str → Nat
  | [] => 0
  | c :: cs => if c.isDigit then digitRun cs + 1 else 0

/-- One `[0-9]{1,3}\.` group of the pattern, matched greedily at the head of
`cs`.  The greedy quantifier consumes the whole digit run (at most 3 digits);
backtracking to fewer digits always fails because the next char would be a
digit, not a dot — so the group matches exactly when the digit run has length
1..3 and is followed by a literal dot.  Returns consumed length and rest. -/
def groupDot (cs : Str) : Option (Nat × Str) :=
  let r := digitRun cs
  if 1 ≤ r ∧ r ≤ 3 then
    match cs.drop r with
    | c :: rest => if c = '.' then some (r + 1, rest) else none
    | [] => none
  else none

/-- Match of the full pattern `(?:[0-9]{1,3}\.){3}[0-9]{1,3}` anchored at the
head of `cs`: three digit-group-plus-dot units, then a final greedy group of
1..3 digits (which takes `min run 3` digits).  Returns the match length. -/
def quadAt (cs : Str) : Option Nat :=
  (groupDot cs).bind fun p1 =>
  (groupDot p1.2).bind fun p2 =>
  (groupDot p2.2).bind fun p3 =>
  let r := digitRun p3.2
  if r = 0 then none else some (p1.1 + p2.1 + p3.1 + min r 3)

/-- `re.search`: try the anchored match at every position, left to right;
return the start index and length of the first (leftmost) match. -/
def searchQuad : Str → Option (Nat × Nat)
  | [] => none
  | c :: t =>
    match quadAt (c :: t) with
    | some len => some (0, len)
    | none => (searchQuad t).map (fun p => (p.1 + 1, p.2))

/-- `re.search(self.ip_pattern, line)` followed by `.group()`: the matched
substring of the line, or `none` when no IPv4-shaped substring occurs. -/
def extract_address (line : Str) : Option Str :=
  (searchQuad line).map (fun p => (line.drop p.1).take p.2)

/-- Specification-side predicate: a 1–3 digit group (one octet field of the
dotted quad, syntactic only — no 0–255 range check). -/
def IsOctetGroup (g : Str) : Prop :=
  1 ≤ g.length ∧ g.length ≤ 3 ∧ ∀ c ∈ g, c.isDigit

/-- Specification-side predicate, written from the words of the spec: the
string is exactly four 1–3 digit groups separated by dots. -/
def MatchesQuad (s : Str) : Prop :=
  ∃ g1 g2 g3 g4, IsOctetGroup g1 ∧ IsOctetGroup g2 ∧ IsOctetGroup g3 ∧
    IsOctetGroup g4 ∧ s = g1 ++ '.' :: (g2 ++ '.' :: (g3 ++ '.' :: g4))

/-! ### Lemmas about the matcher -/

theorem digitRun_le_length (cs : Str) : digitRun cs ≤ cs.length := by
  induction cs with
  | nil => simp [digitRun]
  | cons c t ih =>
    simp only [digitRun, List.length_cons]
    split
    · omega
    · omega

theorem isDigit_of_mem_take_digitRun (cs : Str) :
    ∀ c ∈ cs.take (digitRun cs), c.isDigit := by
  induction cs with
  | nil => simp
  | cons c t ih =>
    simp only [digitRun]
    split
    · intro x hx
      rw [List.take_succ_cons] at hx
      rcases List.mem_cons.mp hx with h | h
      · subst h; assumption
      · exact ih x h
    · simp

theorem isDigit_of_mem_take_of_le (cs : Str) (k : Nat) (hk : k ≤ digitRun cs) :
    ∀ c ∈ cs.take k, c.isDigit := by
  intro c hc
  have : cs.take k = (cs.take (digitRun cs)).take k := by
    rw [List.take_take, Nat.min_eq_left hk]
  rw [this] at hc
  exact isDigit_of_mem_take_digitRun cs c (List.take_subset _ _ hc)

theorem digitRun_append_nondigit (ds : Str) (c : Char) (t : Str)
    (hds : ∀ x ∈ ds, x.isDigit) (hc : c.isDigit = false) :
    digitRun (ds ++ c :: t) = ds.length := by
  induction ds with
  | nil => simp [digitRun, hc]
  | cons d ds ih =>
    have hd : d.isDigit := hds d (List.mem_cons_self d ds)
    simp only [List.cons_append, digitRun, hd, if_true, List.length_cons,
      List.append_eq]
    rw [ih (fun x hx => hds x (List.mem_cons_of_mem d hx))]

theorem length_le_digitRun_append (ds t : Str) (h : ∀ x ∈ ds, x.isDigit) :
    ds.length ≤ digitRun (ds ++ t) := by
  induction ds with
  | nil => simp
  | cons d ds ih =>
    have hd : d.isDigit := h d (List.mem_cons_self d ds)
    simp only [List.cons_append, digitRun, hd, if_true, List.length_cons,
      List.append_eq]
    have := ih (fun x hx => h x (List.mem_cons_of_mem d hx))
    omega

theorem groupDot_of_shape (g t : Str) (h : IsOctetGroup g) :
    groupDot (g ++ '.' :: t) = some (g.length + 1, t) := by
  obtain ⟨h1, h3, hall⟩ := h
  have hr : digitRun (g ++ '.' :: t) = g.length :=
    digitRun_append_nondigit g '.' t hall (by decide)
  simp only [groupDot, hr]
  rw [if_pos ⟨h1, h3⟩, List.drop_left]
  simp

theorem groupDot_sound (cs : Str) (n : Nat) (rest : Str)
    (h : groupDot cs = some (n, rest)) :
    ∃ g, IsOctetGroup g ∧ cs = g ++ '.' :: rest ∧ n = g.length + 1 := by
  simp only [groupDot] at h
  by_cases hcond : 1 ≤ digitRun cs ∧ digitRun cs ≤ 3
  · rw [if_pos hcond] at h
    cases hd : cs.drop (digitRun cs) with
    | nil => rw [hd] at h; simp at h
    | cons c rest0 =>
      rw [hd] at h
      by_cases hc : c = '.'
      · subst hc
        have h2 : digitRun cs + 1 = n ∧ rest0 = rest := by simpa using h
        obtain ⟨hn, hrest⟩ := h2
        subst hrest
        refine ⟨cs.take (digitRun cs), ⟨?_, ?_, ?_⟩, ?_, ?_⟩
        · rw [List.length_take, Nat.min_eq_left (digitRun_le_length cs)]
          exact hcond.1
        · rw [List.length_take, Nat.min_eq_left (digitRun_le_length cs)]
          exact hcond.2
        · exact isDigit_of_mem_take_digitRun cs
        · conv_lhs => rw [← List.take_append_drop (digitRun cs) cs]
          rw [hd]
        · rw [List.length_take, Nat.min_eq_left (digitRun_le_length cs)]
          omega
      · exact absurd h (by simp [hc])
  · rw [if_neg hcond] at h
    simp at h

theorem take_append_exact (a b : Str) (m : Nat) :
    (a ++ b).take (a.length + m) = a ++ b.take m := by
  induction a with
  | nil => simp
  | cons x xs ih =>
    simp only [List.cons_append, List.length_cons]
    rw [show xs.length + 1 + m = (xs.length + m) + 1 from by omega,
      List.take_succ_cons, ih]

theorem take_one_add (c : Char) (xs : Str) (m : Nat) :
    (c :: xs).take (1 + m) = c :: xs.take m := by
  rw [Nat.add_comm, List.take_succ_cons]

theorem take_quad_chain (g1 g2 g3 cs3 : Str) (q : Nat) :
    (g1 ++ '.' :: (g2 ++ '.' :: (g3 ++ '.' :: cs3))).take
        (g1.length + (1 + (g2.length + (1 + (g3.length + (1 + q)))))) =
      g1 ++ '.' :: (g2 ++ '.' :: (g3 ++ '.' :: cs3.take q)) := by
  rw [take_append_exact, take_one_add, take_append_exact, take_one_add,
    take_append_exact, take_one_add]

theorem quadAt_sound (cs : Str) (len : Nat) (h : quadAt cs = some len) :
    MatchesQuad (cs.take len) := by
  simp only [quadAt, Option.bind_eq_some] at h
  obtain ⟨⟨n1, cs1⟩, h1, ⟨n2, cs2⟩, h2, ⟨n3, cs3⟩, h3, hfin⟩ := h
  by_cases hr : digitRun cs3 = 0
  · rw [if_pos hr] at hfin; simp at hfin
  · rw [if_neg hr] at hfin
    have hlen : n1 + n2 + n3 + min (digitRun cs3) 3 = len := Option.some.inj hfin
    obtain ⟨g1, hg1, hcs, hn1⟩ := groupDot_sound cs n1 cs1 h1
    obtain ⟨g2, hg2, hcs1, hn2⟩ := groupDot_sound cs1 n2 cs2 h2
    obtain ⟨g3, hg3, hcs2, hn3⟩ := groupDot_sound cs2 n3 cs3 h3
    have hg4 : IsOctetGroup (cs3.take (min (digitRun cs3) 3)) := by
      refine ⟨?_, ?_, ?_⟩
      · rw [List.length_take]
        have := digitRun_le_length cs3
        omega
      · rw [List.length_take]
        omega
      · exact isDigit_of_mem_take_of_le cs3 _ (Nat.min_le_left _ _)
    refine ⟨g1, g2, g3, cs3.take (min (digitRun cs3) 3),
      hg1, hg2, hg3, hg4, ?_⟩
    have e1 : len =
        g1.length + (1 + (g2.length + (1 + (g3.length +
          (1 + min (digitRun cs3) 3))))) := by omega
    rw [hcs, hcs1, hcs2, e1, take_quad_chain]

theorem quadAt_complete (s t : Str) (h : MatchesQuad s) :
    (quadAt (s ++ t)).isSome := by
  obtain ⟨g1, g2, g3, g4, hg1, hg2, hg3, hg4, rfl⟩ := h
  have e : (g1 ++ '.' :: (g2 ++ '.' :: (g3 ++ '.' :: g4))) ++ t =
      g1 ++ '.' :: (g2 ++ '.' :: (g3 ++ '.' :: (g4 ++ t))) := by simp
  rw [e]
  simp only [quadAt, groupDot_of_shape _ _ hg1, groupDot_of_shape _ _ hg2,
    groupDot_of_shape _ _ hg3, Option.some_bind]
  have h4 : digitRun (g4 ++ t) ≠ 0 := by
    have ha := length_le_digitRun_append g4 t hg4.2.2
    have hb := hg4.1
    omega
  rw [if_neg h4]
  simp

theorem quadAt_nil : quadAt [] = none := by decide

theorem searchQuad_eq_some (cs : Str) (i len : Nat)
    (h : searchQuad cs = some (i, len)) :
    quadAt (cs.drop i) = some len ∧ ∀ j, j < i → quadAt (cs.drop j) = none := by
  induction cs generalizing i len with
  | nil => simp [searchQuad] at h
  | cons c t ih =>
    simp only [searchQuad] at h
    cases hq : quadAt (c :: t) with
    | some l0 =>
      rw [hq] at h
      obtain ⟨hi, hlen⟩ : 0 = i ∧ l0 = len := by simpa using h
      subst hi; subst hlen
      exact ⟨by simpa using hq, fun j hj => absurd hj (by omega)⟩
    | none =>
      rw [hq] at h
      cases hs : searchQuad t with
      | none => rw [hs] at h; simp at h
      | some p =>
        rw [hs] at h
        obtain ⟨hi, hlen⟩ : p.1 + 1 = i ∧ p.2 = len := by simpa using h
        subst hi; subst hlen
        obtain ⟨iha, ihb⟩ := ih p.1 p.2 (by rw [hs])
        refine ⟨by simpa using iha, ?_⟩
        intro j hj
        cases j with
        | zero => simpa using hq
        | succ j0 =>
          simp only [List.drop_succ_cons]
          exact ihb j0 (by omega)

theorem searchQuad_eq_none (cs : Str) (h : searchQuad cs = none) :
    ∀ j, quadAt (cs.drop j) = none := by
  induction cs with
  | nil => intro j; rw [List.drop_nil]; exact quadAt_nil
  | cons c t ih =>
    intro j
    simp only [searchQuad] at h
    cases hq : quadAt (c :: t) with
    | some l0 => rw [hq] at h; simp at h
    | none =>
      rw [hq] at h
      have hs : searchQuad t = none := by
        cases hs0 : searchQuad t with
        | none => rfl
        | some p => rw [hs0] at h; simp at h
      cases j with
      | zero => simpa using hq
      | succ j0 =>
        simp only [List.drop_succ_cons]
        exact ih hs j0

/-! ## Banner detection: `'traceroute to' in line.lower() or ...` -/

/-- `startsWithStr pat s`: `pat` is a prefix of `s` (character-wise). -/
def startsWithStr : Str → Str → Bool
  | [], _ => true
  | _ :: _, [] => false
  | p :: ps, c :: cs => p == c && startsWithStr ps cs

/-- Python substring containment `pat in s`. -/
def containsStr (pat : Str) : Str → Bool
  | [] => startsWithStr pat []
  | c :: cs => startsWithStr pat (c :: cs) || containsStr pat cs

/-- `line.lower()`, modelled for the ASCII range (the banner phrases are
ASCII, so this matches `str.lower` on every character that matters). -/
def lowerStr (s : Str) : Str := s.map Char.toLower

/-- The header-line test of the read loop:
`'traceroute to' in line.lower() or 'tracing route to' in line.lower()`. -/
def isBanner (line : Str) : Bool :=
  containsStr ("traceroute to".toList) (lowerStr line) ||
    containsStr ("tracing route to".toList) (lowerStr line)

/-! ## AddressLookup: `get_location` / `get_asn` over oracle database readers

The `geoip2.database.Reader` calls are oracles returning `Except Unit _`:
`.error` models any raised exception (address not found, read error,
malformed address), `.ok` a successful response object. -/

/-- `response.subdivisions` entries; `name` is `Optional[str]`. -/
structure Subdivision where
  name : Option Str
deriving DecidableEq

/-- The fields of a `geoip2` city response that `get_location` reads. -/
structure RawCity where
  cityName : Option Str
  subdivisions : List Subdivision
  countryName : Option Str
  latitude : Option Int
  longitude : Option Int
deriving DecidableEq

/-- The fields of a `geoip2` ASN response that `get_asn` reads. -/
structure RawAsn where
  number : Option Int
  organization : Option Str
deriving DecidableEq

/-- The dict built by `get_location` (`region` keeps Python's possible
`None`, the other two fields are always strings). -/
structure GeoLocation where
  city : Str
  region : Option Str
  country : Str
  lat : Option Int
  lon : Option Int
deriving DecidableEq

/-- The dict built by `get_asn`. -/
structure AsnInfo where
  asn : Option Int
  org : Option Str
deriving DecidableEq

def naStr : Str := "N/A".toList

/-- Python `x or 'N/A'` for `x : Optional[str]`: `None` and the empty
string are falsy and fall back to the marker. -/
def pyOr : Option Str → Str
  | some s => if s.isEmpty then naStr else s
  | none => naStr

/-- `response.subdivisions.most_specific.name if response.subdivisions
else 'N/A'`: `most_specific` is the last (most specific) subdivision. -/
def regionOf (subs : List Subdivision) : Option Str :=
  match subs.getLast? with
  | some sd => sd.name
  | none => some naStr

/-- `get_location`: wraps the city reader call in try/except, mapping any
failure to `None`. -/
def get_location (cityReader : Str → Except Unit RawCity) (ip : Str) :
    Option GeoLocation :=
  match cityReader ip with
  | .ok r =>
    some { city := pyOr r.cityName
           region := regionOf r.subdivisions
           country := pyOr r.countryName
           lat := r.latitude
           lon := r.longitude }
  | .error _ => none

/-- `get_asn`: wraps the ASN reader call in try/except, mapping any
failure to `None`. -/
def get_asn (asnReader : Str → Except Unit RawAsn) (ip : Str) :
    Option AsnInfo :=
  match asnReader ip with
  | .ok r => some { asn := r.number, org := r.organization }
  | .error _ => none

/-- `resolve_target`: `socket.gethostbyname` wrapped in try/except. -/
def resolve_target (resolveOracle : Str → Except Unit Str) (destination : Str) :
    Option Str :=
  match resolveOracle destination with
  | .ok ip => some ip
  | .error _ => none

/-! ## HopFormatter: `format_hop` -/

def escChar : Char := Char.ofNat 27
def BOLD : Str := [escChar, '[', '1', 'm']
def BLUE : Str := [escChar, '[', '9', '4', 'm']
def GREEN : Str := [escChar, '[', '9', '2', 'm']
def RESET : Str := [escChar, '[', '0', 'm']

/-- `str(n)` for a nonnegative Python int. -/
def pyStrNat (n : Nat) : Str := Nat.toDigits 10 n

/-- `str(i)` for a Python int. -/
def pyStrInt : Int → Str
  | .ofNat n => pyStrNat n
  | .negSucc n => '-' :: pyStrNat (n + 1)

/-- f-string interpolation of an `Optional[int]` (`None` prints as such). -/
def pyShowOptInt : Option Int → Str
  | some i => pyStrInt i
  | none => "None".toList

/-- f-string interpolation of an `Optional[str]`. -/
def pyShowOptStr : Option Str → Str
  | some s => s
  | none => "None".toList

/-- `f"\n{BOLD}{BLUE}#{hop_number} {ip}{RESET}"` -/
def hdrLine (hop_number : Nat) (ip : Str) : Str :=
  '\n' :: (BOLD ++ (BLUE ++ ('#' :: (pyStrNat hop_number ++
    (' ' :: (ip ++ RESET))))))

/-- `f"   {location['city']}, {location['region']}, {location['country']}"` -/
def locationLine (l : GeoLocation) : Str :=
  "   ".toList ++ (l.city ++ (", ".toList ++ (pyShowOptStr l.region ++
    (", ".toList ++ l.country))))

/-- `f"   ({location['lat']}, {location['lon']})"` -/
def coordsLine (l : GeoLocation) : Str :=
  "   (".toList ++ (pyShowOptInt l.lat ++ (", ".toList ++
    (pyShowOptInt l.lon ++ ")".toList)))

/-- `f"   {GREEN}AS{asn_info['asn']} - {asn_info['org']}{RESET}"` -/
def asnLine (a : AsnInfo) : Str :=
  "   ".toList ++ (GREEN ++ ("AS".toList ++ (pyShowOptInt a.asn ++
    (" - ".toList ++ (pyShowOptStr a.org ++ RESET)))))

def notFoundLine : Str := "   Private IP or not found in database".toList

/-- The `output` list built by `format_hop` before the final join.
`raw_output` is accepted (the caller passes `line.strip()`) and unused,
exactly as in the source. -/
def format_hop_lines (hop_number : Nat) (ip : Str)
    (location : Option GeoLocation) (asn_info : Option AsnInfo)
    (raw_output : Str) : List Str :=
  let output : List Str := []
  let output := output ++ [hdrLine hop_number ip]
  let output := match location with
    | some l => output ++ [locationLine l, coordsLine l]
    | none => output
  let output := match asn_info with
    | some a => output ++ [asnLine a]
    | none => output
  if location.isNone && asn_info.isNone then output ++ [notFoundLine]
  else output

/-- `"\n".join(output)` -/
def joinNl : List Str → Str
  | [] => []
  | [s] => s
  | s :: rest => s ++ '\n' :: joinNl rest

/-- `format_hop`: the full returned string. -/
def format_hop (hop_number : Nat) (ip : Str) (location : Option GeoLocation)
    (asn_info : Option AsnInfo) (raw_output : Str) : Str :=
  joinNl (format_hop_lines hop_number ip location asn_info raw_output)

/-! ## TraceStreamRunner: the read loop and `run_traceroute_realtime` -/

/-- One printed hop block: the data passed to `format_hop` in the loop. -/
structure Hop where
  num : Nat
  ip : Str
  loc : Option GeoLocation
  asn : Option AsnInfo
deriving DecidableEq

/-- The `for line in process.stdout` loop: skip banner lines, search the
line for the IPv4 pattern, on a match increment `hop_number`, look the
address up in both databases and emit the hop. -/
def processLoop (cityReader : Str → Except Unit RawCity)
    (asnReader : Str → Except Unit RawAsn) :
    List Str → Nat → List Hop
  | [], _ => []
  | line :: rest, hop_number =>
    if isBanner line then processLoop cityReader asnReader rest hop_number
    else
      match extract_address line with
      | some ip =>
        { num := hop_number + 1, ip := ip
          loc := get_location cityReader ip
          asn := get_asn asnReader ip } ::
          processLoop cityReader asnReader rest (hop_number + 1)
      | none => processLoop cityReader asnReader rest hop_number

/-- The external collaborators of one run. -/
structure Oracles where
  resolveOracle : Str → Except Unit Str
  cityReader : Str → Except Unit RawCity
  asnReader : Str → Except Unit RawAsn
  isWindows : Bool

/-- How the stream of subprocess output lines ends. -/
inductive StreamTail where
  | eof (returncode : Int)
  | raiseDuringRead
deriving DecidableEq

/-- Behaviour of the `subprocess.Popen` call and its stdout stream:
either the launch itself raises, or the stream yields `lines` and then
ends as described by `tail`. -/
inductive SubprocBehavior where
  | launchRaises
  | runs (lines : List Str) (tail : StreamTail)
deriving DecidableEq

/-- The pre-trace summary block (lines printed before the dashes):
an `Option` field is a line that is printed only when present. -/
structure Summary where
  target : Str
  resolvedIp : Option Str
  summaryLoc : Option GeoLocation
  summaryAsn : Option AsnInfo
deriving DecidableEq

/-- Command selection: `tracert` on Windows, `traceroute -n` elsewhere. -/
def traceCmd (isWindows : Bool) (destination : Str) : List Str :=
  if isWindows then ["tracert".toList, destination]
  else ["traceroute".toList, "-n".toList, destination]

/-- Lines 99–112: resolve the target and build the summary block. -/
def preSummary (o : Oracles) (destination : Str) : Summary :=
  let target_ip := resolve_target o.resolveOracle destination
  { target := destination
    resolvedIp := target_ip
    summaryLoc := match target_ip with
      | some ip => get_location o.cityReader ip
      | none => none
    summaryAsn := match target_ip with
      | some ip => get_asn o.asnReader ip
      | none => none }

/-- Observable outcome of `run_traceroute_realtime`: what was printed
(summary, hops, warning, error message), the command launched, and the
returned boolean. -/
structure RunResult where
  summary : Summary
  cmd : List Str
  hops : List Hop
  warned : Bool
  errored : Bool
  success : Bool
deriving DecidableEq

/-- `run_traceroute_realtime`: summary, command selection, the try block
around launch and read loop, `process.wait()` and the exit-status check.
A raised launch/read exception is caught by the `except` clause, prints
the error message and returns `False`; hops already emitted stay in
`hops` (they were printed before the exception). -/
def run_traceroute_realtime (o : Oracles) (sub : SubprocBehavior)
    (destination : Str) : RunResult :=
  let summary := preSummary o destination
  let cmd := traceCmd o.isWindows destination
  match sub with
  | .launchRaises =>
    { summary := summary, cmd := cmd, hops := [], warned := false
      errored := true, success := false }
  | .runs lines tail =>
    let hops := processLoop o.cityReader o.asnReader lines 0
    match tail with
    | .eof rc =>
      { summary := summary, cmd := cmd, hops := hops
        warned := decide (rc ≠ 0), errored := false, success := true }
    | .raiseDuringRead =>
      { summary := summary, cmd := cmd, hops := hops, warned := false
        errored := true, success := false }

/-- Outcome of `main`. -/
structure MainResult where
  exitCode : Nat
  traceRun : Option RunResult
deriving DecidableEq

/-- `main`: usage check (`sys.exit(1)` on wrong argc), constructor
(raises when a database file is missing, caught and turned into
`sys.exit(1)`), then `run_traceroute_realtime` with its boolean result
discarded; normal completion exits 0. -/
def tracerMain (argc : Nat) (cityDbExists asnDbExists : Bool) (o : Oracles)
    (sub : SubprocBehavior) (destination : Str) : MainResult :=
  if argc ≠ 2 then { exitCode := 1, traceRun := none }
  else if !(cityDbExists && asnDbExists) then { exitCode := 1, traceRun := none }
  else { exitCode := 0, traceRun := some (run_traceroute_realtime o sub destination) }

/-! ## Concrete fixtures used by witnesses and counterexamples -/

def errCityReader : Str → Except Unit RawCity := fun _ => .error ()
def errAsnReader : Str → Except Unit RawAsn := fun _ => .error ()
def errResolve : Str → Except Unit Str := fun _ => .error ()

/-- Oracles whose every external call fails. -/
def defaultOracles : Oracles :=
  { resolveOracle := errResolve, cityReader := errCityReader
    asnReader := errAsnReader, isWindows := false }

/-- A city reader returning a response whose only subdivision has no
name, as `geoip2` permits (`Subdivision.name` is `Optional[str]`). -/
def namelessSubReader : Str → Except Unit RawCity :=
  fun _ => .ok { cityName := some "X".toList
                 subdivisions := [{ name := none }]
                 countryName := some "Y".toList
                 latitude := some 1
                 longitude := some 2 }

/-! ## Claim theorems -/

theorem processLoop_nums (cityR : Str → Except Unit RawCity)
    (asnR : Str → Except Unit RawAsn) (lines : List Str) : ∀ n : Nat,
    (processLoop cityR asnR lines n).map Hop.num =
      List.range' (n + 1) (processLoop cityR asnR lines n).length ∧
    (processLoop cityR asnR lines n).length =
      lines.countP (fun l => !isBanner l && (extract_address l).isSome) := by
  induction lines with
  | nil => intro n; simp [processLoop]
  | cons line rest ih =>
    intro n
    by_cases hb : isBanner line
    · simp only [processLoop, if_pos hb]
      have hp : (!isBanner line && (extract_address line).isSome) = false := by
        rw [hb]; rfl
      refine ⟨(ih n).1, ?_⟩
      rw [(ih n).2, List.countP_cons, hp]
      simp
    · cases he : extract_address line with
      | none =>
        simp only [processLoop, if_neg hb, he]
        have hp : (!isBanner line && (extract_address line).isSome) = false := by
          rw [he]; simp
        refine ⟨(ih n).1, ?_⟩
        rw [(ih n).2, List.countP_cons, hp]
        simp
      | some ip =>
        simp only [processLoop, if_neg hb, he]
        have hp : (!isBanner line && (extract_address line).isSome) = true := by
          rw [he]; simp [hb]
        constructor
        · simp only [List.map_cons, List.length_cons]
          rw [List.range'_succ]
          exact congrArg _ (ih (n + 1)).1
        · rw [List.length_cons, (ih (n + 1)).2, List.countP_cons, hp]
          simp

/-- C1: hops emitted by the read loop carry sequence numbers exactly
1, 2, 3, … in arrival order, and the counter advances exactly once per
non-banner line from which an address is extracted — lines with no
IPv4-shaped substring and banner lines never consume a number. -/
theorem hop_sequence_numbers (cityR : Str → Except Unit RawCity)
    (asnR : Str → Except Unit RawAsn) (lines : List Str) :
    (processLoop cityR asnR lines 0).map Hop.num =
      List.range' 1 (processLoop cityR asnR lines 0).length ∧
    (processLoop cityR asnR lines 0).length =
      lines.countP (fun l => !isBanner l && (extract_address l).isSome) :=
  processLoop_nums cityR asnR lines 0

def bannerEx : Str :=
  "traceroute to example.com (93.184.216.34), 30 hops max".toList

def bannerExUpper : Str := "Tracing Route To 10.0.0.1".toList

/-- C2: a line containing a banner phrase (case-insensitively) is skipped
before pattern matching: it produces no hop and consumes no sequence
number, even when the line also contains an IPv4-shaped substring. -/
theorem banner_lines_produce_no_hop :
    (∀ (cityR : Str → Except Unit RawCity) (asnR : Str → Except Unit RawAsn)
        (n : Nat) (line : Str) (rest : List Str), isBanner line = true →
        processLoop cityR asnR (line :: rest) n =
          processLoop cityR asnR rest n) ∧
    isBanner bannerEx = true ∧
    (extract_address bannerEx).isSome = true ∧
    processLoop errCityReader errAsnReader [bannerEx] 0 = [] ∧
    isBanner bannerExUpper = true ∧
    (extract_address bannerExUpper).isSome = true ∧
    processLoop errCityReader errAsnReader [bannerExUpper] 0 = [] := by
  refine ⟨?_, by decide, by decide, by decide, by decide, by decide, by decide⟩
  intro cityR asnR n line rest hb
  simp [processLoop, hb]

theorem banner_lines_produce_no_hop_witness :
    processLoop errCityReader errAsnReader (bannerEx :: []) 5 =
      processLoop errCityReader errAsnReader [] 5 :=
  banner_lines_produce_no_hop.1 errCityReader errAsnReader 5 bannerEx []
    (by decide)

/-- C3: for every line, address extraction returns the substring at the
first (leftmost) position where the syntactic dotted-quad pattern (four
1–3 digit groups separated by dots, no 0–255 range validation) matches:
the extracted substring matches the pattern, no pattern match starts
earlier, and when no substring matches the pattern anywhere the
extraction is absent; a string such as 999.999.999.999 is extracted. -/
theorem extract_address_first_quad :
    (∀ (cs : Str) (i len : Nat), searchQuad cs = some (i, len) →
      extract_address cs = some ((cs.drop i).take len) ∧
      MatchesQuad ((cs.drop i).take len) ∧
      ∀ j, j < i → ∀ s, MatchesQuad s → ¬ s <+: cs.drop j) ∧
    (∀ cs : Str, searchQuad cs = none →
      extract_address cs = none ∧
      ∀ (j : Nat) (s : Str), MatchesQuad s → ¬ s <+: cs.drop j) ∧
    extract_address (" 1  999.999.999.999  1.234 ms".toList) =
      some ("999.999.999.999".toList) := by
  refine ⟨?_, ?_, by decide⟩
  · intro cs i len h
    obtain ⟨hq, hmin⟩ := searchQuad_eq_some cs i len h
    refine ⟨by simp [extract_address, h], quadAt_sound _ _ hq, ?_⟩
    intro j hj s hs hpre
    obtain ⟨u, hu⟩ := hpre
    have hsome := quadAt_complete s u hs
    rw [hu, hmin j hj] at hsome
    simp at hsome
  · intro cs h
    refine ⟨by simp [extract_address, h], ?_⟩
    intro j s hs hpre
    obtain ⟨u, hu⟩ := hpre
    have hsome := quadAt_complete s u hs
    rw [hu, searchQuad_eq_none cs h j] at hsome
    simp at hsome

theorem extract_address_first_quad_witness :
    MatchesQuad (((" a 12.34.56.78 x".toList).drop 3).take 11) :=
  (extract_address_first_quad.1 (" a 12.34.56.78 x".toList) 3 11
    (by decide)).2.1

/-- C4: the two lookup wrappers are total: every failure of the
underlying database reader (address not in the database, read error,
malformed address — any raised exception, modelled as `.error`) yields
the absent outcome `none`, and every successful read yields a present
result; no failure propagates to the caller. -/
theorem lookups_never_raise (cityR : Str → Except Unit RawCity)
    (asnR : Str → Except Unit RawAsn) (ip : Str) :
    ((∃ e : Unit, cityR ip = .error e) → get_location cityR ip = none) ∧
    (∀ r : RawCity, cityR ip = .ok r → (get_location cityR ip).isSome = true) ∧
    ((∃ e : Unit, asnR ip = .error e) → get_asn asnR ip = none) ∧
    (∀ r : RawAsn, asnR ip = .ok r → (get_asn asnR ip).isSome = true) := by
  refine ⟨?_, ?_, ?_, ?_⟩
  · rintro ⟨e, he⟩; simp [get_location, he]
  · intro r hr; simp [get_location, hr]
  · rintro ⟨e, he⟩; simp [get_asn, he]
  · intro r hr; simp [get_asn, hr]

theorem lookups_never_raise_witness :
    get_location errCityReader ("10.0.0.1".toList) = none ∧
    get_asn errAsnReader ("192.168.1.1".toList) = none :=
  ⟨(lookups_never_raise errCityReader errAsnReader ("10.0.0.1".toList)).1
      ⟨(), rfl⟩,
   (lookups_never_raise errCityReader errAsnReader ("192.168.1.1".toList)).2.2.1
      ⟨(), rfl⟩⟩

theorem pyOr_ne_nil (x : Option Str) : pyOr x ≠ [] := by
  cases x with
  | none => simp [pyOr, naStr]
  | some s =>
    simp only [pyOr]
    split
    · simp [naStr]
    · next hs =>
      intro hnil
      subst hnil
      simp at hs

theorem pyOr_falsy (x : Option Str) (h : x = none ∨ x = some []) :
    pyOr x = naStr := by
  rcases h with rfl | rfl <;> simp [pyOr]

theorem pyOr_truthy (s : Str) (h : s ≠ []) : pyOr (some s) = s := by
  simp only [pyOr]
  rw [if_neg]
  intro hc
  exact h (by simpa using hc)

/-- C5 counterexample: a successful location lookup can return a region
field that is null rather than the N/A marker — when the database
response has a subdivision whose name is absent, `get_location` passes
the null through (`most_specific.name` is only guarded by the
subdivision list being nonempty, not by the name being present). -/
theorem get_location_region_can_be_none :
    ∃ g, get_location namelessSubReader ("8.8.8.8".toList) = some g ∧
      g.region = none :=
  ⟨_, rfl, rfl⟩

/-- C5 (amended): on a successful lookup, city and country are never
empty or null (falsy database values become the N/A marker), latitude
and longitude are passed through verbatim, and region is the N/A marker
when there is no subdivision — but when a most specific subdivision
exists its name is passed through verbatim, so region may be null or
empty. -/
theorem get_location_field_handling (cityR : Str → Except Unit RawCity)
    (ip : Str) (r : RawCity) (h : cityR ip = .ok r) :
    ∃ g, get_location cityR ip = some g ∧
      g.lat = r.latitude ∧ g.lon = r.longitude ∧
      g.city ≠ [] ∧ g.country ≠ [] ∧
      (r.cityName = none ∨ r.cityName = some [] → g.city = naStr) ∧
      (∀ s, r.cityName = some s → s ≠ [] → g.city = s) ∧
      (r.countryName = none ∨ r.countryName = some [] → g.country = naStr) ∧
      (∀ s, r.countryName = some s → s ≠ [] → g.country = s) ∧
      (r.subdivisions = [] → g.region = some naStr) ∧
      (∀ sd, r.subdivisions.getLast? = some sd → g.region = sd.name) := by
  unfold get_location
  rw [h]
  refine ⟨_, rfl, rfl, rfl, pyOr_ne_nil _, pyOr_ne_nil _, ?_, ?_, ?_, ?_,
    ?_, ?_⟩
  · exact fun hf => pyOr_falsy _ hf
  · intro s hs hne
    rw [hs]
    exact pyOr_truthy s hne
  · exact fun hf => pyOr_falsy _ hf
  · intro s hs hne
    rw [hs]
    exact pyOr_truthy s hne
  · intro hemp
    simp [regionOf, hemp]
  · intro sd hsd
    simp [regionOf, hsd]

def okCityResp : RawCity :=
  { cityName := some "Tokyo".toList
    subdivisions := []
    countryName := some "Japan".toList
    latitude := some 35
    longitude := some 139 }

def okCityReader : Str → Except Unit RawCity := fun _ => .ok okCityResp

theorem get_location_field_handling_witness :
    ∃ g, get_location okCityReader ("1.1.1.1".toList) = some g ∧
      g.lat = okCityResp.latitude ∧ g.lon = okCityResp.longitude ∧
      g.city ≠ [] ∧ g.country ≠ [] ∧
      (okCityResp.cityName = none ∨ okCityResp.cityName = some [] →
        g.city = naStr) ∧
      (∀ s, okCityResp.cityName = some s → s ≠ [] → g.city = s) ∧
      (okCityResp.countryName = none ∨ okCityResp.countryName = some [] →
        g.country = naStr) ∧
      (∀ s, okCityResp.countryName = some s → s ≠ [] → g.country = s) ∧
      (okCityResp.subdivisions = [] → g.region = some naStr) ∧
      (∀ sd, okCityResp.subdivisions.getLast? = some sd →
        g.region = sd.name) :=
  get_location_field_handling okCityReader ("1.1.1.1".toList) okCityResp rfl

def destEx : Str := "example.com".toList

/-- C6 counterexample: a subprocess launch failure does not make the
process exit non-zero — `run_traceroute_realtime` returns `False` and an
error message is printed, but `main` ignores the returned boolean and
completes normally, so the exit status is 0. -/
theorem subprocess_failure_exit_zero :
    (tracerMain 2 true true defaultOracles .launchRaises destEx).exitCode
      = 0 ∧
    ∃ r, (tracerMain 2 true true defaultOracles .launchRaises
        destEx).traceRun = some r ∧
      r.success = false ∧ r.errored = true :=
  ⟨rfl, _, rfl, rfl, rfl⟩

/-- C6 (amended): when launching or reading the subprocess fails, run
reports failure (returns false) and prints the error message, but the
process as a whole still exits with status 0, because `main` discards
the boolean result of `run_traceroute_realtime`; a non-zero exit occurs
only for a wrong argument count or an exception outside the run, such as
a missing database file. -/
theorem subprocess_failure_reported (o : Oracles) (dest : Str)
    (lines : List Str) :
    ((run_traceroute_realtime o .launchRaises dest).success = false ∧
      (run_traceroute_realtime o .launchRaises dest).errored = true ∧
      (tracerMain 2 true true o .launchRaises dest).exitCode = 0) ∧
    ((run_traceroute_realtime o (.runs lines .raiseDuringRead) dest).success
        = false ∧
      (run_traceroute_realtime o (.runs lines .raiseDuringRead) dest).errored
        = true ∧
      (tracerMain 2 true true o (.runs lines .raiseDuringRead) dest).exitCode
        = 0) ∧
    (tracerMain 1 true true o .launchRaises dest).exitCode = 1 ∧
    (tracerMain 2 false true o .launchRaises dest).exitCode = 1 ∧
    (tracerMain 2 true false o .launchRaises dest).exitCode = 1 :=
  ⟨⟨rfl, rfl, rfl⟩, ⟨rfl, rfl, rfl⟩, rfl, rfl, rfl⟩

/-- C7: when the output stream ends and the child exits with a non-zero
status, the run prints the warning, keeps every hop already emitted, and
still returns success — a non-zero child exit is never escalated to
failure. -/
theorem nonzero_exit_warns (o : Oracles) (dest : Str) (lines : List Str)
    (rc : Int) (h : rc ≠ 0) :
    (run_traceroute_realtime o (.runs lines (.eof rc)) dest).warned = true ∧
    (run_traceroute_realtime o (.runs lines (.eof rc)) dest).success = true ∧
    (run_traceroute_realtime o (.runs lines (.eof rc)) dest).errored
      = false ∧
    (run_traceroute_realtime o (.runs lines (.eof rc)) dest).hops =
      processLoop o.cityReader o.asnReader lines 0 := by
  refine ⟨?_, rfl, rfl, rfl⟩
  show decide (rc ≠ 0) = true
  exact decide_eq_true h

theorem nonzero_exit_warns_witness :
    (run_traceroute_realtime defaultOracles (.runs [] (.eof 1))
        destEx).warned = true ∧
    (run_traceroute_realtime defaultOracles (.runs [] (.eof 1))
        destEx).success = true ∧
    (run_traceroute_realtime defaultOracles (.runs [] (.eof 1))
        destEx).errored = false ∧
    (run_traceroute_realtime defaultOracles (.runs [] (.eof 1))
        destEx).hops =
      processLoop defaultOracles.cityReader defaultOracles.asnReader [] 0 :=
  nonzero_exit_warns defaultOracles destEx [] 1 (by decide)

/-- C8: any exception raised while launching or reading the subprocess is
caught by the except clause: the run prints the error message and returns
false, and the hops emitted before the exception remain exactly the ones
processed from the lines read so far. -/
theorem exceptions_caught_return_false (o : Oracles) (dest : Str)
    (lines : List Str) :
    ((run_traceroute_realtime o .launchRaises dest).success = false ∧
      (run_traceroute_realtime o .launchRaises dest).errored = true ∧
      (run_traceroute_realtime o .launchRaises dest).hops = []) ∧
    ((run_traceroute_realtime o (.runs lines .raiseDuringRead) dest).success
        = false ∧
      (run_traceroute_realtime o (.runs lines .raiseDuringRead) dest).errored
        = true ∧
      (run_traceroute_realtime o (.runs lines .raiseDuringRead) dest).hops =
        processLoop o.cityReader o.asnReader lines 0) :=
  ⟨⟨rfl, rfl, rfl⟩, ⟨rfl, rfl, rfl⟩⟩

/-- C9: when resolution of the destination fails, `resolve_target`
returns absent instead of raising, the pre-trace summary omits the
resolved-address, location and owner lines, and the run still launches
the trace subprocess with the original destination string unchanged as
the (final) command argument. -/
theorem resolution_failure_graceful (o : Oracles) (dest : Str)
    (h : o.resolveOracle dest = .error ()) :
    resolve_target o.resolveOracle dest = none ∧
    ∀ sub : SubprocBehavior,
      (run_traceroute_realtime o sub dest).summary.resolvedIp = none ∧
      (run_traceroute_realtime o sub dest).summary.summaryLoc = none ∧
      (run_traceroute_realtime o sub dest).summary.summaryAsn = none ∧
      (run_traceroute_realtime o sub dest).cmd = traceCmd o.isWindows dest ∧
      (run_traceroute_realtime o sub dest).cmd.getLast? = some dest := by
  have hres : resolve_target o.resolveOracle dest = none := by
    simp [resolve_target, h]
  refine ⟨hres, ?_⟩
  intro sub
  have hsum : (run_traceroute_realtime o sub dest).summary =
      preSummary o dest := by
    cases sub with
    | launchRaises => rfl
    | runs lines tail => cases tail <;> rfl
  have hcmd : (run_traceroute_realtime o sub dest).cmd =
      traceCmd o.isWindows dest := by
    cases sub with
    | launchRaises => rfl
    | runs lines tail => cases tail <;> rfl
  rw [hsum, hcmd]
  refine ⟨?_, ?_, ?_, rfl, ?_⟩
  · simp [preSummary, hres]
  · simp [preSummary, hres]
  · simp [preSummary, hres]
  · cases hw : o.isWindows
    · show ((["traceroute".toList, "-n".toList] : List Str)
        ++ [dest]).getLast? = some dest
      exact List.getLast?_concat _
    · show ((["tracert".toList] : List Str) ++ [dest]).getLast? = some dest
      exact List.getLast?_concat _

theorem resolution_failure_graceful_witness :
    resolve_target defaultOracles.resolveOracle destEx = none :=
  (resolution_failure_graceful defaultOracles destEx rfl).1

theorem hdrLine_ne_notFound (n : Nat) (ip : Str) :
    hdrLine n ip ≠ notFoundLine := by
  intro h
  have h1 : (hdrLine n ip).head? = some '\n' := rfl
  rw [h] at h1
  have h2 : notFoundLine.head? = some ' ' := rfl
  exact absurd (h1.symm.trans h2) (by decide)

theorem locationLine_ne_notFound (l : GeoLocation) :
    locationLine l ≠ notFoundLine := by
  intro h
  have hmem : ',' ∈ locationLine l :=
    List.mem_append_right _ (List.mem_append_right _
      (List.mem_append_left _ (by decide)))
  rw [h] at hmem
  exact absurd hmem (by decide)

theorem coordsLine_ne_notFound (l : GeoLocation) :
    coordsLine l ≠ notFoundLine := by
  intro h
  have hmem : '(' ∈ coordsLine l := List.mem_append_left _ (by decide)
  rw [h] at hmem
  exact absurd hmem (by decide)

theorem asnLine_ne_notFound (a : AsnInfo) : asnLine a ≠ notFoundLine := by
  intro h
  have hmem : escChar ∈ asnLine a :=
    List.mem_append_right _ (List.mem_append_left _ (by decide))
  rw [h] at hmem
  exact absurd hmem (by decide)

/-- C10: the formatter always emits the header line carrying the sequence
number and the address; it appends the location and coordinates lines
exactly when location is present and the ASN line exactly when owner is
present; the explanatory private-or-unknown line appears exactly when
both are absent; and the raw subprocess line never influences the output
(the result is identical for every value of the raw argument). -/
theorem format_hop_structure (n : Nat) (ip : Str) (loc : Option GeoLocation)
    (asn : Option AsnInfo) (raw1 raw2 : Str) :
    format_hop_lines n ip loc asn raw1 = format_hop_lines n ip loc asn raw2 ∧
    (format_hop_lines n ip loc asn raw1).length =
      1 + (if loc.isSome then 2 else 0) + (if asn.isSome then 1 else 0) +
        (if loc.isNone && asn.isNone then 1 else 0) ∧
    (∃ t, format_hop_lines n ip loc asn raw1 = hdrLine n ip :: t) ∧
    pyStrNat n <:+: hdrLine n ip ∧
    ip <:+: hdrLine n ip ∧
    (notFoundLine ∈ format_hop_lines n ip loc asn raw1 ↔
      loc = none ∧ asn = none) := by
  refine ⟨rfl, ?_, ?_, ?_, ?_, ?_⟩
  · cases loc <;> cases asn <;> rfl
  · cases loc <;> cases asn <;> exact ⟨_, rfl⟩
  · exact ⟨'\n' :: (BOLD ++ (BLUE ++ ['#'])), ' ' :: (ip ++ RESET),
      by simp [hdrLine]⟩
  · exact ⟨'\n' :: (BOLD ++ (BLUE ++ ('#' :: (pyStrNat n ++ [' '])))), RESET,
      by simp [hdrLine]⟩
  · cases loc with
    | none =>
      cases asn with
      | none => simp [format_hop_lines]
      | some a =>
        have he : format_hop_lines n ip none (some a) raw1 =
            [hdrLine n ip, asnLine a] := rfl
        refine iff_of_false (fun hmem => ?_) (by simp)
        rw [he] at hmem
        simp only [List.mem_cons, List.not_mem_nil, or_false] at hmem
        rcases hmem with h | h
        · exact hdrLine_ne_notFound n ip h.symm
        · exact asnLine_ne_notFound a h.symm
    | some l =>
      cases asn with
      | none =>
        have he : format_hop_lines n ip (some l) none raw1 =
            [hdrLine n ip, locationLine l, coordsLine l] := rfl
        refine iff_of_false (fun hmem => ?_) (by simp)
        rw [he] at hmem
        simp only [List.mem_cons, List.not_mem_nil, or_false] at hmem
        rcases hmem with h | h | h
        · exact hdrLine_ne_notFound n ip h.symm
        · exact locationLine_ne_notFound l h.symm
        · exact coordsLine_ne_notFound l h.symm
      | some a =>
        have he : format_hop_lines n ip (some l) (some a) raw1 =
            [hdrLine n ip, locationLine l, coordsLine l, asnLine a] := rfl
        refine iff_of_false (fun hmem => ?_) (by simp)
        rw [he] at hmem
        simp only [List.mem_cons, List.not_mem_nil, or_false] at hmem
        rcases hmem with h | h | h | h
        · exact hdrLine_ne_notFound n ip h.symm
        · exact locationLine_ne_notFound l h.symm
        · exact coordsLine_ne_notFound l h.symm
        · exact asnLine_ne_notFound a h.symm

def sampleLines : List Str :=
  [bannerEx,
   " 1  192.168.1.1  1.234 ms".toList,
   " 2  * * *".toList,
   " 3  93.184.216.34  20.1 ms".toList]

theorem hop_sequence_numbers_witness :
    (processLoop errCityReader errAsnReader sampleLines 0).map Hop.num =
      List.range' 1
        (processLoop errCityReader errAsnReader sampleLines 0).length ∧
    (processLoop errCityReader errAsnReader sampleLines 0).length =
      sampleLines.countP
        (fun l => !isBanner l && (extract_address l).isSome) :=
  hop_sequence_numbers errCityReader errAsnReader sampleLines

theorem subprocess_failure_reported_witness :
    ((run_traceroute_realtime defaultOracles .launchRaises destEx).success
        = false ∧
      (run_traceroute_realtime defaultOracles .launchRaises destEx).errored
        = true ∧
      (tracerMain 2 true true defaultOracles .launchRaises destEx).exitCode
        = 0) ∧
    ((run_traceroute_realtime defaultOracles (.runs [] .raiseDuringRead)
        destEx).success = false ∧
      (run_traceroute_realtime defaultOracles (.runs [] .raiseDuringRead)
        destEx).errored = true ∧
      (tracerMain 2 true true defaultOracles (.runs [] .raiseDuringRead)
        destEx).exitCode = 0) ∧
    (tracerMain 1 true true defaultOracles .launchRaises destEx).exitCode
      = 1 ∧
    (tracerMain 2 false true defaultOracles .launchRaises destEx).exitCode
      = 1 ∧
    (tracerMain 2 true false defaultOracles .launchRaises destEx).exitCode
      = 1 :=
  subprocess_failure_reported defaultOracles destEx []

theorem exceptions_caught_return_false_witness :
    ((run_traceroute_realtime defaultOracles .launchRaises destEx).success
        = false ∧
      (run_traceroute_realtime defaultOracles .launchRaises destEx).errored
        = true ∧
      (run_traceroute_realtime defaultOracles .launchRaises destEx).hops
        = []) ∧
    ((run_traceroute_realtime defaultOracles
        (.runs [bannerEx] .raiseDuringRead) destEx).success = false ∧
      (run_traceroute_realtime defaultOracles
        (.runs [bannerEx] .raiseDuringRead) destEx).errored = true ∧
      (run_traceroute_realtime defaultOracles
          (.runs [bannerEx] .raiseDuringRead) destEx).hops =
        processLoop defaultOracles.cityReader defaultOracles.asnReader
          [bannerEx] 0) :=
  exceptions_caught_return_false defaultOracles destEx [bannerEx]

theorem format_hop_structure_witness :
    format_hop_lines 3 ("8.8.8.8".toList) none none [] =
      format_hop_lines 3 ("8.8.8.8".toList) none none ("x".toList) ∧
    (format_hop_lines 3 ("8.8.8.8".toList) none none []).length =
      1 + (if (none : Option GeoLocation).isSome then 2 else 0) +
        (if (none : Option AsnInfo).isSome then 1 else 0) +
        (if (none : Option GeoLocation).isNone &&
            (none : Option AsnInfo).isNone then 1 else 0) ∧
    (∃ t, format_hop_lines 3 ("8.8.8.8".toList) none none [] =
      hdrLine 3 ("8.8.8.8".toList) :: t) ∧
    pyStrNat 3 <:+: hdrLine 3 ("8.8.8.8".toList) ∧
    ("8.8.8.8".toList) <:+: hdrLine 3 ("8.8.8.8".toList) ∧
    (notFoundLine ∈ format_hop_lines 3 ("8.8.8.8".toList) none none [] ↔
      (none : Option GeoLocation) = none ∧ (none : Option AsnInfo) = none) :=
  format_hop_structure 3 ("8.8.8.8".toList) none none [] ("x".toList)
